import Mathlib

/-
Verification of the Thunder service orchestration module
(`Thunder/__main__.py`): the plugin loader `import_plugins`, the startup
sequence and teardown of `start_services`, and the background loop
`schedule_token_cleanup`.

The Python module is shallowly embedded as pure Lean functions.  External
collaborators (the Telegram client, the database, the rate limiter, the
web runner) are modelled by oracles: an `Env` record fixes the outcome of
each external call, and running a function produces a `List Event` trace
recording, in order, every external call the code issues, together with
the resulting state.
-/

namespace Thunder

/-- Outcome of a fallible external call (`StreamBot.start`,
`StreamBot.get_me`): success, a pyrogram `FloodWait` carrying a wait in
seconds, or any other exception with a message. -/
inductive CallOutcome where
  | ok
  | floodWait (seconds : Nat)
  | err (msg : String)
deriving DecidableEq, Repr

/-- Outcome of `StreamBot.edit_message_text`: success, pyrogram
`MessageNotModified`, `FloodWait`, or any other exception. -/
inductive EditOutcome where
  | ok
  | notModified
  | floodWait (seconds : Nat)
  | err (msg : String)
deriving DecidableEq, Repr

/-- The persisted restart notice returned by `db.get_restart_message`:
a dict with keys `chat_id` and `message_id`. -/
structure Notice where
  chat_id : Int
  message_id : Int
deriving DecidableEq, Repr

/-- One observable step of `start_services`: each constructor records one
external call (or global-state write) the Python code performs, in program
order.  `bg` stands for an iteration of a concurrent background task that
the event loop may interleave at any suspension point. -/
inductive Event where
  | connectAttempt (n : Nat)
  | getMeAttempt (n : Nat)
  | sleep (seconds : Nat)
  | setUsername (u : String)
  | setCommandsCall
  | getRestartMessage
  | editMessage (chatId messageId : Int)
  | deleteRestartMessage (messageId : Int)
  | logError (msg : String)
  | initClients
  | pluginPass
  | createTask (label : String)
  | listenerStart
  | idleWait
  | cancelTask (label : String)
  | releaseClients
  | limiterShutdown
  | listenerCleanup
  | bg (n : Nat)
deriving DecidableEq, Repr

/- ──────────────────────────── Plugin loader ──────────────────────────── -/

/-- How loading one discovered plugin file behaves:
`ok` — `spec_from_file_location` yields a usable spec and `exec_module`
succeeds; `invalidSpec` — the spec or its loader is `None`;
`execError` — `exec_module` (or any other statement of the loop body)
raises. -/
inductive PluginOutcome where
  | ok
  | invalidSpec
  | execError (msg : String)
deriving DecidableEq, Repr

/-- A discovered plugin file: its stem (`Path(file_path).stem`) and how
loading it behaves. -/
structure PluginFile where
  name : String
  outcome : PluginOutcome
deriving DecidableEq, Repr

/-- True when loading the plugin fails (either failure branch appends the
stem to `failed_plugins`). -/
def pluginFails (o : PluginOutcome) : Bool :=
  match o with
  | .ok => false
  | .invalidSpec => true
  | .execError _ => true

/-- The summary `import_plugins` prints at the end of the pass:
`Total | Success | Failed` together with the failed-plugin names. -/
structure LoadReport where
  total : Nat
  succeeded : Nat
  failed : List String
deriving DecidableEq, Repr

/-- The `for file_path in plugins` loop of `import_plugins`, carrying the
`success_count` and `failed_plugins` accumulators.  Every outcome is
handled locally (`continue` / `except Exception`), so the loop is total:
no file's failure stops the iteration. -/
def importLoop : List PluginFile → Nat → List String → Nat × List String
  | [], succ, failed => (succ, failed)
  | p :: rest, succ, failed =>
    match p.outcome with
    | .ok => importLoop rest (succ + 1) failed
    | .invalidSpec => importLoop rest succ (failed ++ [p.name])
    | .execError _ => importLoop rest succ (failed ++ [p.name])

/-- `import_plugins` (lines 59-94): glob the plugin directory; with no
candidates return the zero report at once, otherwise run the loop and
report total, successes and failed names. -/
def import_plugins (plugins : List PluginFile) : LoadReport :=
  match plugins with
  | [] => ⟨0, 0, []⟩
  | _ =>
    let r := importLoop plugins 0 []
    ⟨plugins.length, r.1, r.2⟩

theorem importLoop_spec (l : List PluginFile) (s : Nat) (f : List String) :
    importLoop l s f =
      (s + (l.filter (fun p => !pluginFails p.outcome)).length,
       f ++ (l.filter (fun p => pluginFails p.outcome)).map (fun p => p.name)) := by
  induction l generalizing s f with
  | nil => simp [importLoop]
  | cons p rest ih =>
    cases h : p.outcome <;>
      simp [importLoop, h, pluginFails, ih, List.filter_cons] <;> omega

theorem length_filter_not_fails (l : List PluginFile) :
    (l.filter (fun p => !pluginFails p.outcome)).length =
      l.length - (l.filter (fun p => pluginFails p.outcome)).length := by
  induction l with
  | nil => rfl
  | cons p rest ih =>
    have hle := List.length_filter_le (fun p => pluginFails p.outcome) rest
    cases h : pluginFails p.outcome <;> simp [List.filter_cons, h, ih] <;> omega

/-- Claim C2: the plugin pass is total and isolating — for N discovered
files of which K fail, the report has total N, succeeded N - K, and the
failed list holds exactly the names of the K failing files in order; with
zero candidates the report is the zero report. -/
theorem C2_plugin_isolation (plugins : List PluginFile) :
    (import_plugins plugins).total = plugins.length ∧
    (import_plugins plugins).succeeded =
      plugins.length - (plugins.filter (fun p => pluginFails p.outcome)).length ∧
    (import_plugins plugins).failed =
      (plugins.filter (fun p => pluginFails p.outcome)).map (fun p => p.name) ∧
    import_plugins [] = ⟨0, 0, []⟩ := by
  match plugins with
  | [] => exact ⟨rfl, rfl, rfl, rfl⟩
  | q :: rest =>
    refine ⟨rfl, ?_, ?_, rfl⟩
    · show (importLoop (q :: rest) 0 []).1 = _
      rw [importLoop_spec]
      simp [length_filter_not_fails]
    · show (importLoop (q :: rest) 0 []).2 = _
      rw [importLoop_spec]
      simp

/-- Claim C2, instantiated: a concrete pass over three files of which two
fail (one invalid spec, one raising loader) yields total 3, one success
and the two failing names. -/
theorem C2_plugin_isolation_witness :
    (import_plugins [⟨"alpha", .ok⟩, ⟨"beta", .invalidSpec⟩, ⟨"gamma", .execError "boom"⟩]).total = 3 ∧
    (import_plugins [⟨"alpha", .ok⟩, ⟨"beta", .invalidSpec⟩, ⟨"gamma", .execError "boom"⟩]).succeeded = 1 ∧
    (import_plugins [⟨"alpha", .ok⟩, ⟨"beta", .invalidSpec⟩, ⟨"gamma", .execError "boom"⟩]).failed =
      ["beta", "gamma"] := by
  have h := C2_plugin_isolation
    [⟨"alpha", .ok⟩, ⟨"beta", .invalidSpec⟩, ⟨"gamma", .execError "boom"⟩]
  exact ⟨h.1, h.2.1, h.2.2.1⟩

/- ─────────────────────────── Startup sequencer ───────────────────────── -/

/-- The oracle for one run of the startup block of `start_services`
(lines 103-137): outcomes of the first and (if reached) second
`StreamBot.start` call, of the two possible `StreamBot.get_me` calls, the
username `get_me` returns, whether `set_commands` raises, the restart
notice currently persisted in the database, and the outcome of the
`edit_message_text` call. -/
structure Env where
  start1 : CallOutcome
  start2 : CallOutcome
  getMe1 : CallOutcome
  getMe2 : CallOutcome
  botUsername : String
  setCommandsErr : Option String
  restartNotice : Option Notice
  edit : EditOutcome
deriving DecidableEq, Repr

/-- The `logger.error` line of the outer `except Exception` handler
(line 136). -/
def initFail (m : String) : Event :=
  .logError ("Bot initialization failed: " ++ m)

/-- The `try ... except FloodWait: sleep; retry` pattern used for
`StreamBot.start` (lines 104-108) and `StreamBot.get_me` (lines 110-114):
attempt the call; on `FloodWait(w)` sleep `w` seconds and attempt exactly
once more; any exception of the second attempt, or a non-FloodWait
exception of the first, propagates (returned as `some msg`). -/
def floodRetry (o1 o2 : CallOutcome) (att : Nat → Event) : List Event × Option String :=
  match o1 with
  | .ok => ([att 1], none)
  | .floodWait w =>
    match o2 with
    | .ok => ([att 1, .sleep w, att 2], none)
    | .floodWait w2 => ([att 1, .sleep w, att 2], some ("FloodWait " ++ toString w2))
    | .err m => ([att 1, .sleep w, att 2], some m)
  | .err m => ([att 1], some m)

/-- Result of the restart-notice block: events issued, the notice left in
the database, and an exception (if any) propagating to the outer handler. -/
structure ResolveResult where
  events : List Event
  db : Option Notice
  err : Option String
deriving DecidableEq, Repr

/-- The restart-notice block (lines 121-133): read the persisted notice;
if present, edit the referenced message and on plain success delete the
notice; `MessageNotModified` is swallowed (`pass`), `FloodWait(w)` sleeps
`w` and does not retry, and any other exception propagates.  In the last
three cases the delete never runs, so the notice stays persisted. -/
def resolveRestartNotice (db : Option Notice) (edit : EditOutcome) : ResolveResult :=
  match db with
  | none => ⟨[.getRestartMessage], none, none⟩
  | some n =>
    match edit with
    | .ok => ⟨[.getRestartMessage, .editMessage n.chat_id n.message_id,
               .deleteRestartMessage n.message_id], none, none⟩
    | .notModified => ⟨[.getRestartMessage, .editMessage n.chat_id n.message_id], some n, none⟩
    | .floodWait w => ⟨[.getRestartMessage, .editMessage n.chat_id n.message_id,
                        .sleep w], some n, none⟩
    | .err m => ⟨[.getRestartMessage, .editMessage n.chat_id n.message_id], some n, some m⟩

/-- Result of the startup block: the event trace, whether the block ran to
its end (`ready = true`) or was aborted by the outer handler's
`return` (`ready = false`), the notice left in the database, and the value
of the global `StreamBot.username` if it was assigned. -/
structure StartupResult where
  trace : List Event
  ready : Bool
  db : Option Notice
  username : Option String
deriving DecidableEq, Repr

/-- Startup after `get_me` succeeded (lines 116-133): assign
`StreamBot.username`, call `set_commands` — whose exception, caught only
by the outer handler, aborts the block — then run the restart-notice
block, whose own uncaught exceptions abort likewise. -/
def afterIdentity (env : Env) : StartupResult :=
  let base := [Event.setUsername env.botUsername, Event.setCommandsCall]
  match env.setCommandsErr with
  | some m => ⟨base ++ [initFail m], false, env.restartNotice, some env.botUsername⟩
  | none =>
    let r := resolveRestartNotice env.restartNotice env.edit
    match r.err with
    | some m => ⟨base ++ r.events ++ [initFail m], false, r.db, some env.botUsername⟩
    | none => ⟨base ++ r.events, true, r.db, some env.botUsername⟩

/-- Startup after `StreamBot.start` succeeded: the `get_me` step with its
single FloodWait retry, then `afterIdentity`. -/
def afterConnect (env : Env) : StartupResult :=
  let r := floodRetry env.getMe1 env.getMe2 Event.getMeAttempt
  match r.2 with
  | some m => ⟨r.1 ++ [initFail m], false, env.restartNotice, none⟩
  | none =>
    let s := afterIdentity env
    ⟨r.1 ++ s.trace, s.ready, s.db, s.username⟩

/-- The whole guarded startup block of `start_services` (lines 103-137):
the `StreamBot.start` step with its single FloodWait retry, then
`afterConnect`.  Any exception reaching the outer `except Exception`
handler is logged and makes the function return (`ready = false`). -/
def runStartup (env : Env) : StartupResult :=
  let r := floodRetry env.start1 env.start2 Event.connectAttempt
  match r.2 with
  | some m => ⟨r.1 ++ [initFail m], false, env.restartNotice, none⟩
  | none =>
    let s := afterConnect env
    ⟨r.1 ++ s.trace, s.ready, s.db, s.username⟩

/- ─────────────────────────── Shutdown teardown ───────────────────────── -/

/-- Oracle for the `finally` teardown (lines 160-166): whether each of
`cleanup_clients()`, `rate_limiter.shutdown()` and `app_runner.cleanup()`
raises.  `Task.cancel()` cannot raise. -/
structure TeardownEnv where
  cleanupClientsErr : Option String
  limiterShutdownErr : Option String
  appRunnerCleanupErr : Option String
deriving DecidableEq, Repr

/-- The `finally` block (lines 160-166): cancel the three background
tasks (synchronously, no suspension point between the `cancel()` calls),
then await `cleanup_clients()`, `rate_limiter.shutdown()` and
`app_runner.cleanup()` in that order.  The steps are not individually
guarded: an exception from one awaited step propagates out of the
`finally` block and the remaining statements never run.  `b1`, `b2`, `b3`
are background-task iterations the event loop may interleave at each
await. -/
def teardownRun (env : TeardownEnv) (b1 b2 b3 : List Nat) : List Event × Option String :=
  let tail1 : List Event × Option String :=
    match env.cleanupClientsErr with
    | some m => ([], some m)
    | none =>
      let tail2 : List Event × Option String :=
        match env.limiterShutdownErr with
        | some m => ([], some m)
        | none => (Event.listenerCleanup :: b3.map Event.bg, env.appRunnerCleanupErr)
      (Event.limiterShutdown :: (b2.map Event.bg ++ tail2.1), tail2.2)
  (Event.cancelTask "request_executor_task" :: Event.cancelTask "keepalive_task" ::
     Event.cancelTask "token_cleanup_task" :: Event.releaseClients ::
     (b1.map Event.bg ++ tail1.1),
   tail1.2)

/-- All of `start_services` (lines 97-166): the guarded startup block; if
it aborted, the function returns at once — otherwise initialize the extra
clients, run the plugin pass, create the three background tasks, start
the web listener, block in `idle()`, and finally tear down. -/
def start_services (env : Env) (tenv : TeardownEnv) (b1 b2 b3 : List Nat) :
    List Event × Option Notice :=
  let s := runStartup env
  if s.ready then
    (s.trace ++
      [Event.initClients, Event.pluginPass,
       Event.createTask "request_executor_task", Event.createTask "keepalive_task",
       Event.createTask "token_cleanup_task",
       Event.listenerStart, Event.idleWait] ++
      (teardownRun tenv b1 b2 b3).1,
     s.db)
  else (s.trace, s.db)

/- ──────────────────────────── Cleanup loop ───────────────────────────── -/

/-- How one iteration of the token-cleanup loop body behaves: both the
three-hour sleep and `cleanup_expired_tokens()` succeed (`ok`), some
statement raises an ordinary exception (`fail`), or `CancelledError` is
delivered (`cancelled`). -/
inductive IterOutcome where
  | ok
  | fail (msg : String)
  | cancelled
deriving DecidableEq, Repr

/-- Observable steps of the token-cleanup loop: the `asyncio.sleep(3 *
3600)` suspension, the `cleanup_expired_tokens()` call, and the
`logger.error` of the generic `except` arm. -/
inductive CEvent where
  | sleepInterval
  | cleanupCall
  | logErr (msg : String)
deriving DecidableEq, Repr

/-- `schedule_token_cleanup` (lines 169-177), driven by a finite stream of
iteration outcomes: `while True`, each iteration sleeps then cleans up;
`CancelledError` breaks out of the loop (no log), any other exception is
logged and the loop continues.  Returns the events, whether the loop
terminated (`break`), and the outcomes left unconsumed when it did. -/
def schedule_token_cleanup : List IterOutcome → List CEvent × Bool × List IterOutcome
  | [] => ([], false, [])
  | .ok :: rest =>
    let r := schedule_token_cleanup rest
    (CEvent.sleepInterval :: CEvent.cleanupCall :: r.1, r.2)
  | .fail m :: rest =>
    let r := schedule_token_cleanup rest
    (CEvent.sleepInterval :: CEvent.cleanupCall :: CEvent.logErr m :: r.1, r.2)
  | .cancelled :: rest => ([CEvent.sleepInterval], true, rest)

/-- The events a run of the loop produces for a stream that contains no
cancellation: per iteration, sleep and cleanup, plus an error log for a
failing iteration (a cancelled iteration, were one present, would add
only its interrupted sleep). -/
def cleanupEvents : List IterOutcome → List CEvent
  | [] => []
  | .ok :: rest => CEvent.sleepInterval :: CEvent.cleanupCall :: cleanupEvents rest
  | .fail m :: rest =>
    CEvent.sleepInterval :: CEvent.cleanupCall :: CEvent.logErr m :: cleanupEvents rest
  | .cancelled :: _ => [CEvent.sleepInterval]

/- ─────────────── Helper predicates on trace events ─────────────── -/

/-- True on a `StreamBot.start` call event. -/
def isConnectAttempt : Event → Bool
  | .connectAttempt _ => true
  | _ => false

/-- True on a `StreamBot.get_me` call event. -/
def isGetMeAttempt : Event → Bool
  | .getMeAttempt _ => true
  | _ => false

/-- True on the events that only the post-`Ready` serving phase issues:
the plugin pass, creating a background task, starting the web listener. -/
def isServeEvent : Event → Bool
  | .pluginPass => true
  | .createTask _ => true
  | .listenerStart => true
  | _ => false

/-- True on a `logger.error` event. -/
def isLogError : Event → Bool
  | .logError _ => true
  | _ => false

/-- Whether the trace contains a `logger.error` event. -/
def hasLogError (tr : List Event) : Bool :=
  tr.any isLogError

theorem afterIdentity_filter (env : Env) (p : Event → Bool)
    (hu : ∀ u, p (.setUsername u) = false) (hc : p .setCommandsCall = false)
    (hl : ∀ m, p (.logError m) = false) (hg : p .getRestartMessage = false)
    (he : ∀ a b, p (.editMessage a b) = false)
    (hd : ∀ a, p (.deleteRestartMessage a) = false)
    (hs : ∀ w, p (.sleep w) = false) :
    (afterIdentity env).trace.filter p = [] := by
  rcases env with ⟨s1, s2, g1, g2, u, sc, rn, ed⟩
  cases sc <;> cases rn <;> cases ed <;>
    simp [afterIdentity, resolveRestartNotice, initFail, List.filter_cons,
      List.filter_append, hu, hc, hl, hg, he, hd, hs]

theorem afterConnect_filter (env : Env) (p : Event → Bool)
    (hu : ∀ u, p (.setUsername u) = false) (hc : p .setCommandsCall = false)
    (hl : ∀ m, p (.logError m) = false) (hg : p .getRestartMessage = false)
    (he : ∀ a b, p (.editMessage a b) = false)
    (hd : ∀ a, p (.deleteRestartMessage a) = false)
    (hs : ∀ w, p (.sleep w) = false)
    (hm : ∀ n, p (.getMeAttempt n) = false) :
    (afterConnect env).trace.filter p = [] := by
  have hid := afterIdentity_filter env p hu hc hl hg he hd hs
  cases hg1 : env.getMe1 <;> cases hg2 : env.getMe2 <;>
    simp [afterConnect, floodRetry, hg1, hg2, initFail, List.filter_cons,
      List.filter_append, hm, hs, hl, hid]

theorem runStartup_filter (env : Env) (p : Event → Bool)
    (hu : ∀ u, p (.setUsername u) = false) (hc : p .setCommandsCall = false)
    (hl : ∀ m, p (.logError m) = false) (hg : p .getRestartMessage = false)
    (he : ∀ a b, p (.editMessage a b) = false)
    (hd : ∀ a, p (.deleteRestartMessage a) = false)
    (hs : ∀ w, p (.sleep w) = false)
    (hm : ∀ n, p (.getMeAttempt n) = false)
    (hn : ∀ n, p (.connectAttempt n) = false) :
    (runStartup env).trace.filter p = [] := by
  have hac := afterConnect_filter env p hu hc hl hg he hd hs hm
  cases hs1 : env.start1 <;> cases hs2 : env.start2 <;>
    simp [runStartup, floodRetry, hs1, hs2, initFail, List.filter_cons,
      List.filter_append, hn, hs, hl, hac]

theorem afterConnect_filter_connect (env : Env) :
    (afterConnect env).trace.filter isConnectAttempt = [] :=
  afterConnect_filter env isConnectAttempt (fun _ => rfl) rfl (fun _ => rfl) rfl
    (fun _ _ => rfl) (fun _ => rfl) (fun _ => rfl) (fun _ => rfl)

theorem afterIdentity_filter_getMe (env : Env) :
    (afterIdentity env).trace.filter isGetMeAttempt = [] :=
  afterIdentity_filter env isGetMeAttempt (fun _ => rfl) rfl (fun _ => rfl) rfl
    (fun _ _ => rfl) (fun _ => rfl) (fun _ => rfl)

theorem runStartup_filter_serve (env : Env) :
    (runStartup env).trace.filter isServeEvent = [] :=
  runStartup_filter env isServeEvent (fun _ => rfl) rfl (fun _ => rfl) rfl
    (fun _ _ => rfl) (fun _ => rfl) (fun _ => rfl) (fun _ => rfl) (fun _ => rfl)

theorem afterIdentity_head (env : Env) :
    ∃ t, (afterIdentity env).trace = Event.setUsername env.botUsername :: t := by
  rcases env with ⟨s1, s2, g1, g2, u, sc, rn, ed⟩
  cases sc <;> cases rn <;> cases ed <;>
    exact ⟨_, rfl⟩

theorem afterConnect_head (env : Env) :
    ∃ t, (afterConnect env).trace = Event.getMeAttempt 1 :: t := by
  cases hg1 : env.getMe1 <;> [skip; cases hg2 : env.getMe2; skip] <;>
    simp [afterConnect, floodRetry, hg1] <;>
    simp [hg2]

theorem afterIdentity_ready_log (env : Env) (h : (afterIdentity env).ready = false) :
    hasLogError (afterIdentity env).trace = true := by
  rcases env with ⟨s1, s2, g1, g2, u, sc, rn, ed⟩
  cases sc <;> cases rn <;> cases ed <;>
    simp [afterIdentity, resolveRestartNotice, initFail, hasLogError, isLogError] at h ⊢

theorem afterConnect_ready_log (env : Env) (h : (afterConnect env).ready = false) :
    hasLogError (afterConnect env).trace = true := by
  have hid := afterIdentity_ready_log env
  cases hg1 : env.getMe1 <;> cases hg2 : env.getMe2 <;>
    simp [afterConnect, floodRetry, hg1, hg2, initFail, hasLogError, isLogError,
      List.any_append] at h ⊢ <;>
    simpa [hasLogError, isLogError] using hid h

theorem runStartup_ready_log (env : Env) (h : (runStartup env).ready = false) :
    hasLogError (runStartup env).trace = true := by
  have hac := afterConnect_ready_log env
  cases hs1 : env.start1 <;> cases hs2 : env.start2 <;>
    simp [runStartup, floodRetry, hs1, hs2, initFail, hasLogError, isLogError,
      List.any_append] at h ⊢ <;>
    simpa [hasLogError, isLogError] using hac h

/- ──────────────────────── Claims C3 and C9 ──────────────────────── -/

/-- Claim C3: one `FloodWait(w)` from `StreamBot.start` with a successful
retry makes the sequencer emit exactly attempt, sleep `w`, attempt and
proceed to the identity step; two consecutive FloodWaits abort startup
after exactly two attempts; the `get_me` step behaves the same way. -/
theorem C3_single_retry_backoff (env : Env) (w w2 : Nat) :
    (env.start1 = .floodWait w → env.start2 = .ok →
      ((∃ t, (runStartup env).trace =
          [.connectAttempt 1, .sleep w, .connectAttempt 2, .getMeAttempt 1] ++ t) ∧
       ((runStartup env).trace.filter isConnectAttempt).length = 2)) ∧
    (env.start1 = .floodWait w → env.start2 = .floodWait w2 →
      ((runStartup env).ready = false ∧
       ((runStartup env).trace.filter isConnectAttempt).length = 2 ∧
       (runStartup env).trace =
         [.connectAttempt 1, .sleep w, .connectAttempt 2,
          initFail ("FloodWait " ++ toString w2)])) ∧
    (env.start1 = .ok → env.getMe1 = .floodWait w → env.getMe2 = .ok →
      ((∃ t, (runStartup env).trace =
          [.connectAttempt 1, .getMeAttempt 1, .sleep w, .getMeAttempt 2,
           .setUsername env.botUsername] ++ t) ∧
       ((runStartup env).trace.filter isGetMeAttempt).length = 2)) ∧
    (env.start1 = .ok → env.getMe1 = .floodWait w → env.getMe2 = .floodWait w2 →
      ((runStartup env).ready = false ∧
       ((runStartup env).trace.filter isGetMeAttempt).length = 2)) := by
  refine ⟨?_, ?_, ?_, ?_⟩
  · intro h1 h2
    obtain ⟨t, ht⟩ := afterConnect_head env
    constructor
    · exact ⟨t, by simp [runStartup, floodRetry, h1, h2, ht]⟩
    · simp [runStartup, floodRetry, h1, h2, List.filter_cons, List.filter_append,
        isConnectAttempt, afterConnect_filter_connect env]
  · intro h1 h2
    refine ⟨?_, ?_, ?_⟩ <;>
      simp [runStartup, floodRetry, h1, h2, initFail, List.filter_cons, isConnectAttempt]
  · intro h1 hg1 hg2
    obtain ⟨t, ht⟩ := afterIdentity_head env
    constructor
    · exact ⟨t, by simp [runStartup, afterConnect, floodRetry, h1, hg1, hg2, ht]⟩
    · simp [runStartup, afterConnect, floodRetry, h1, hg1, hg2, List.filter_cons,
        List.filter_append, isGetMeAttempt, afterIdentity_filter_getMe env]
  · intro h1 hg1 hg2
    constructor <;>
      simp [runStartup, afterConnect, floodRetry, h1, hg1, hg2, initFail,
        List.filter_cons, List.filter_append, isGetMeAttempt]

/-- Claim C3, instantiated: connect FloodWaits for 5 seconds once and the
retry succeeds — the run sleeps 5 seconds between its exactly two connect
attempts and proceeds to `get_me`. -/
theorem C3_single_retry_backoff_witness :
    (Env.mk (.floodWait 5) .ok .ok .ok "thunderbot" none none .ok).start1 =
        CallOutcome.floodWait 5 ∧
    (∃ t, (runStartup (Env.mk (.floodWait 5) .ok .ok .ok "thunderbot" none none .ok)).trace =
      [.connectAttempt 1, .sleep 5, .connectAttempt 2, .getMeAttempt 1] ++ t) ∧
    ((runStartup (Env.mk (.floodWait 5) .ok .ok .ok "thunderbot" none none .ok)).trace.filter
        isConnectAttempt).length = 2 := by
  have h := (C3_single_retry_backoff
    (Env.mk (.floodWait 5) .ok .ok .ok "thunderbot" none none .ok) 5 0).1 rfl rfl
  exact ⟨rfl, h.1, h.2⟩

/-- Claim C9: whenever the guarded startup block aborts (`ready = false`),
the error is logged and the run stops there — the trace of the whole
`start_services` run contains no plugin pass, no task creation and no
listener start. -/
theorem C9_failed_aborts (env : Env) (tenv : TeardownEnv) (b1 b2 b3 : List Nat)
    (h : (runStartup env).ready = false) :
    hasLogError (start_services env tenv b1 b2 b3).1 = true ∧
    (start_services env tenv b1 b2 b3).1.filter isServeEvent = [] := by
  have hss : (start_services env tenv b1 b2 b3).1 = (runStartup env).trace := by
    simp [start_services, h]
  rw [hss]
  exact ⟨runStartup_ready_log env h, runStartup_filter_serve env⟩

/-- Claim C9, instantiated: a fatally failing `StreamBot.start` aborts
startup with a log line, and no serving event ever appears. -/
theorem C9_failed_aborts_witness :
    (runStartup (Env.mk (.err "unauthorized") .ok .ok .ok "b" none none .ok)).ready = false ∧
    hasLogError (start_services (Env.mk (.err "unauthorized") .ok .ok .ok "b" none none .ok)
      ⟨none, none, none⟩ [] [] []).1 = true ∧
    (start_services (Env.mk (.err "unauthorized") .ok .ok .ok "b" none none .ok)
      ⟨none, none, none⟩ [] [] []).1.filter isServeEvent = [] := by
  have h := C9_failed_aborts (Env.mk (.err "unauthorized") .ok .ok .ok "b" none none .ok)
    ⟨none, none, none⟩ [] [] [] rfl
  exact ⟨rfl, h.1, h.2⟩

/- ──────────────────── Claims C1, C7, C8, C10 ──────────────────── -/

/-- True on an `edit_message_text` call event. -/
def isEditMessage : Event → Bool
  | .editMessage _ _ => true
  | _ => false

/-- Claim C1 (counterexample): with connect and `get_me` succeeding and
`set_commands` raising, the outer `except Exception` handler returns from
`start_services` — `ready` is false and no plugin pass, task creation or
listener start ever appears, contradicting the claim that the sequencer
still reaches Ready. -/
theorem C1_counterexample :
    (runStartup (Env.mk .ok .ok .ok .ok "bot" (some "boom") none .ok)).ready = false ∧
    Event.pluginPass ∉ (start_services (Env.mk .ok .ok .ok .ok "bot" (some "boom") none .ok)
      ⟨none, none, none⟩ [] [] []).1 ∧
    Event.listenerStart ∉ (start_services (Env.mk .ok .ok .ok .ok "bot" (some "boom") none .ok)
      ⟨none, none, none⟩ [] [] []).1 ∧
    (start_services (Env.mk .ok .ok .ok .ok "bot" (some "boom") none .ok)
      ⟨none, none, none⟩ [] [] []).1.filter isServeEvent = [] := by
  decide

/-- Claim C1 (amended): an exception from the command-registration step is
caught only by the outer startup handler, so it is fatal: the failure is
logged, the sequencer does not reach Ready, and the plugin pass, the
background tasks and the network listener never start. -/
theorem C1_registration_failure_fatal (env : Env) (m : String) (tenv : TeardownEnv)
    (b1 b2 b3 : List Nat)
    (h1 : env.start1 = .ok) (h2 : env.getMe1 = .ok) (hsc : env.setCommandsErr = some m) :
    (runStartup env).ready = false ∧
    Event.setCommandsCall ∈ (runStartup env).trace ∧
    hasLogError (start_services env tenv b1 b2 b3).1 = true ∧
    (start_services env tenv b1 b2 b3).1.filter isServeEvent = [] := by
  have hready : (runStartup env).ready = false := by
    simp [runStartup, afterConnect, afterIdentity, floodRetry, h1, h2, hsc]
  have hmem : Event.setCommandsCall ∈ (runStartup env).trace := by
    simp [runStartup, afterConnect, afterIdentity, floodRetry, h1, h2, hsc]
  have hss : (start_services env tenv b1 b2 b3).1 = (runStartup env).trace := by
    simp [start_services, hready]
  refine ⟨hready, hmem, ?_, ?_⟩
  · rw [hss]; exact runStartup_ready_log env hready
  · rw [hss]; exact runStartup_filter_serve env

/-- Claim C1 (amended), instantiated at a concrete failing registration. -/
theorem C1_registration_failure_fatal_witness :
    (runStartup (Env.mk .ok .ok .ok .ok "bot" (some "menu down") none .ok)).ready = false ∧
    Event.setCommandsCall ∈
      (runStartup (Env.mk .ok .ok .ok .ok "bot" (some "menu down") none .ok)).trace ∧
    hasLogError (start_services (Env.mk .ok .ok .ok .ok "bot" (some "menu down") none .ok)
      ⟨none, none, none⟩ [] [] []).1 = true ∧
    (start_services (Env.mk .ok .ok .ok .ok "bot" (some "menu down") none .ok)
      ⟨none, none, none⟩ [] [] []).1.filter isServeEvent = [] :=
  C1_registration_failure_fatal (Env.mk .ok .ok .ok .ok "bot" (some "menu down") none .ok)
    "menu down" ⟨none, none, none⟩ [] [] [] rfl rfl rfl

/-- Claim C7: when a restart notice is present and the edit succeeds, the
notice is deleted, so it is absent afterwards; when none is present the
resolution step only reads the database — no edit, no delete, no error,
and startup still reaches Ready. -/
theorem C7_notice_resolution (env : Env) (n : Notice)
    (h1 : env.start1 = .ok) (h2 : env.getMe1 = .ok) (hsc : env.setCommandsErr = none) :
    (env.restartNotice = some n → env.edit = .ok →
      ((runStartup env).ready = true ∧
       (runStartup env).db = none ∧
       Event.deleteRestartMessage n.message_id ∈ (runStartup env).trace)) ∧
    (env.restartNotice = none →
      ((runStartup env).ready = true ∧
       (runStartup env).db = none ∧
       Event.getRestartMessage ∈ (runStartup env).trace ∧
       (∀ a b, Event.editMessage a b ∉ (runStartup env).trace) ∧
       (∀ a, Event.deleteRestartMessage a ∉ (runStartup env).trace) ∧
       hasLogError (runStartup env).trace = false)) := by
  constructor
  · intro hrn hed
    refine ⟨?_, ?_, ?_⟩ <;>
      simp [runStartup, afterConnect, afterIdentity, resolveRestartNotice, floodRetry,
        h1, h2, hsc, hrn, hed]
  · intro hrn
    refine ⟨?_, ?_, ?_, ?_, ?_, ?_⟩ <;>
      simp [runStartup, afterConnect, afterIdentity, resolveRestartNotice, floodRetry,
        h1, h2, hsc, hrn, hasLogError, isLogError]

/-- Claim C7, instantiated: a present notice with a successful edit is
deleted; a startup with no notice is a no-op resolution. -/
theorem C7_notice_resolution_witness :
    ((runStartup (Env.mk .ok .ok .ok .ok "bot" none (some ⟨77, 42⟩) .ok)).ready = true ∧
     (runStartup (Env.mk .ok .ok .ok .ok "bot" none (some ⟨77, 42⟩) .ok)).db = none ∧
     Event.deleteRestartMessage 42 ∈
       (runStartup (Env.mk .ok .ok .ok .ok "bot" none (some ⟨77, 42⟩) .ok)).trace) ∧
    ((runStartup (Env.mk .ok .ok .ok .ok "bot" none none .ok)).ready = true ∧
     (runStartup (Env.mk .ok .ok .ok .ok "bot" none none .ok)).db = none ∧
     Event.getRestartMessage ∈ (runStartup (Env.mk .ok .ok .ok .ok "bot" none none .ok)).trace ∧
     (∀ a b, Event.editMessage a b ∉
        (runStartup (Env.mk .ok .ok .ok .ok "bot" none none .ok)).trace) ∧
     (∀ a, Event.deleteRestartMessage a ∉
        (runStartup (Env.mk .ok .ok .ok .ok "bot" none none .ok)).trace) ∧
     hasLogError (runStartup (Env.mk .ok .ok .ok .ok "bot" none none .ok)).trace = false) := by
  have hA := (C7_notice_resolution (Env.mk .ok .ok .ok .ok "bot" none (some ⟨77, 42⟩) .ok)
    ⟨77, 42⟩ rfl rfl rfl).1 rfl rfl
  have hB := (C7_notice_resolution (Env.mk .ok .ok .ok .ok "bot" none none .ok)
    ⟨0, 0⟩ rfl rfl rfl).2 rfl
  exact ⟨hA, hB⟩

/-- Claim C8: a `FloodWait(w)` from the restart-notice edit makes the
process sleep exactly `w` seconds, attempt the edit exactly once, and
still reach Ready and start serving. -/
theorem C8_edit_floodwait_single_attempt (env : Env) (n : Notice) (w : Nat)
    (tenv : TeardownEnv) (b1 b2 b3 : List Nat)
    (h1 : env.start1 = .ok) (h2 : env.getMe1 = .ok) (hsc : env.setCommandsErr = none)
    (hrn : env.restartNotice = some n) (hed : env.edit = .floodWait w) :
    (runStartup env).trace =
      [.connectAttempt 1, .getMeAttempt 1, .setUsername env.botUsername,
       .setCommandsCall, .getRestartMessage,
       .editMessage n.chat_id n.message_id, .sleep w] ∧
    ((runStartup env).trace.filter isEditMessage).length = 1 ∧
    (runStartup env).ready = true ∧
    Event.listenerStart ∈ (start_services env tenv b1 b2 b3).1 := by
  have hready : (runStartup env).ready = true := by
    simp [runStartup, afterConnect, afterIdentity, resolveRestartNotice, floodRetry,
      h1, h2, hsc, hrn, hed]
  refine ⟨?_, ?_, hready, ?_⟩
  · simp [runStartup, afterConnect, afterIdentity, resolveRestartNotice, floodRetry,
      h1, h2, hsc, hrn, hed]
  · simp [runStartup, afterConnect, afterIdentity, resolveRestartNotice, floodRetry,
      h1, h2, hsc, hrn, hed, List.filter_cons, isEditMessage]
  · simp [start_services, hready]

/-- Claim C8, instantiated: an edit FloodWait of 30 seconds. -/
theorem C8_edit_floodwait_single_attempt_witness :
    (runStartup (Env.mk .ok .ok .ok .ok "bot" none (some ⟨8, 3⟩) (.floodWait 30))).trace =
      [.connectAttempt 1, .getMeAttempt 1, .setUsername "bot",
       .setCommandsCall, .getRestartMessage, .editMessage 8 3, .sleep 30] ∧
    ((runStartup (Env.mk .ok .ok .ok .ok "bot" none (some ⟨8, 3⟩)
        (.floodWait 30))).trace.filter isEditMessage).length = 1 ∧
    (runStartup (Env.mk .ok .ok .ok .ok "bot" none (some ⟨8, 3⟩) (.floodWait 30))).ready = true ∧
    Event.listenerStart ∈ (start_services
      (Env.mk .ok .ok .ok .ok "bot" none (some ⟨8, 3⟩) (.floodWait 30))
      ⟨none, none, none⟩ [] [] []).1 :=
  C8_edit_floodwait_single_attempt (Env.mk .ok .ok .ok .ok "bot" none (some ⟨8, 3⟩)
    (.floodWait 30)) ⟨8, 3⟩ 30 ⟨none, none, none⟩ [] [] [] rfl rfl rfl rfl rfl

/-- Claim C10: the delete of the persisted notice runs exactly when the
edit call returns without raising; a `MessageNotModified` or `FloodWait`
outcome lets startup continue to Ready but leaves the notice persisted. -/
theorem C10_unchanged_keeps_notice (env : Env) (n : Notice) (db : Option Notice)
    (ed : EditOutcome) (w : Nat)
    (h1 : env.start1 = .ok) (h2 : env.getMe1 = .ok) (hsc : env.setCommandsErr = none) :
    (db = some n →
      (Event.deleteRestartMessage n.message_id ∈ (resolveRestartNotice db ed).events ↔
        ed = .ok)) ∧
    (env.restartNotice = some n → env.edit = .notModified →
      ((runStartup env).ready = true ∧ (runStartup env).db = some n ∧
       Event.deleteRestartMessage n.message_id ∉ (runStartup env).trace)) ∧
    (env.restartNotice = some n → env.edit = .floodWait w →
      ((runStartup env).ready = true ∧ (runStartup env).db = some n ∧
       Event.deleteRestartMessage n.message_id ∉ (runStartup env).trace)) := by
  refine ⟨?_, ?_, ?_⟩
  · intro hdb
    subst hdb
    cases ed <;> simp [resolveRestartNotice]
  · intro hrn hed
    refine ⟨?_, ?_, ?_⟩ <;>
      simp [runStartup, afterConnect, afterIdentity, resolveRestartNotice, floodRetry,
        h1, h2, hsc, hrn, hed]
  · intro hrn hed
    refine ⟨?_, ?_, ?_⟩ <;>
      simp [runStartup, afterConnect, afterIdentity, resolveRestartNotice, floodRetry,
        h1, h2, hsc, hrn, hed]

/-- Claim C10, instantiated: a `MessageNotModified` edit outcome reaches
Ready with the notice still persisted and no delete call issued. -/
theorem C10_unchanged_keeps_notice_witness :
    (runStartup (Env.mk .ok .ok .ok .ok "bot" none (some ⟨9, 4⟩) .notModified)).ready = true ∧
    (runStartup (Env.mk .ok .ok .ok .ok "bot" none (some ⟨9, 4⟩) .notModified)).db =
      some ⟨9, 4⟩ ∧
    Event.deleteRestartMessage 4 ∉
      (runStartup (Env.mk .ok .ok .ok .ok "bot" none (some ⟨9, 4⟩) .notModified)).trace :=
  (C10_unchanged_keeps_notice (Env.mk .ok .ok .ok .ok "bot" none (some ⟨9, 4⟩) .notModified)
    ⟨9, 4⟩ none .ok 0 rfl rfl rfl).2.1 rfl rfl

/- ──────────────────── Claims C4 and C5 (teardown) ──────────────────── -/

/-- True on a `Task.cancel()` event. -/
def isCancelTask : Event → Bool
  | .cancelTask _ => true
  | _ => false

/-- True on the `cleanup_clients()` call event. -/
def isReleaseClients : Event → Bool
  | .releaseClients => true
  | _ => false

/-- True on the `rate_limiter.shutdown()` call event. -/
def isLimiterShutdown : Event → Bool
  | .limiterShutdown => true
  | _ => false

/-- True on the `app_runner.cleanup()` call event. -/
def isListenerCleanup : Event → Bool
  | .listenerCleanup => true
  | _ => false

/-- Every event satisfying `p` occurs strictly before every event
satisfying `q`: wherever the trace splits at a `q` event, no event from
that point on satisfies `p`. -/
def Precedes (p q : Event → Bool) (tr : List Event) : Prop :=
  ∀ l1 e l2, tr = l1 ++ e :: l2 → q e = true → ∀ x ∈ e :: l2, p x = false

theorem precedes_of_split (A B : List Event) (p q : Event → Bool)
    (hA : ∀ x ∈ A, q x = false) (hB : ∀ x ∈ B, p x = false) :
    Precedes p q (A ++ B) := by
  intro l1 e l2 hsplit hq x hx
  rcases List.append_eq_append_iff.mp hsplit with ⟨m, hl1, hB2⟩ | ⟨m, hA2, hd⟩
  · exact hB x (by rw [hB2]; exact List.mem_append_right m hx)
  · cases m with
    | nil =>
      have hBe : e :: l2 = B := by simpa using hd
      exact hB x (hBe ▸ hx)
    | cons y m1 =>
      have hy : y ∈ A := by
        rw [hA2]
        exact List.mem_append_right l1 (List.mem_cons_self y m1)
      have he : e = y := by
        have hh := congrArg (fun l => l.head?) hd
        simpa using hh
      rw [he, hA y hy] at hq
      cases hq

theorem precedes_of_no_q (tr : List Event) (p q : Event → Bool)
    (h : ∀ x ∈ tr, q x = false) : Precedes p q tr := by
  intro l1 e l2 hsplit hq x hx
  have he : e ∈ tr := by rw [hsplit]; simp
  rw [h e he] at hq
  cases hq

/-- Claim C4 (counterexample): when `cleanup_clients()` raises, the
exception propagates out of the unguarded `finally` block, so the
rate-limiter shutdown and the listener teardown never run — a failing
step does prevent the later steps. -/
theorem C4_counterexample :
    Event.releaseClients ∈ (teardownRun ⟨some "network down", none, none⟩ [] [] []).1 ∧
    Event.limiterShutdown ∉ (teardownRun ⟨some "network down", none, none⟩ [] [] []).1 ∧
    Event.listenerCleanup ∉ (teardownRun ⟨some "network down", none, none⟩ [] [] []).1 ∧
    (teardownRun ⟨some "network down", none, none⟩ [] [] []).2 = some "network down" := by
  decide

/-- Claim C4 (amended): the four teardown steps run sequentially but are
not individually guarded.  The task cancellations and the client-release
call always run; the limiter shutdown runs exactly when the client
release did not raise; the listener teardown runs exactly when neither
the client release nor the limiter shutdown raised. -/
theorem C4_teardown_not_guarded (tenv : TeardownEnv) (b1 b2 b3 : List Nat) :
    Event.cancelTask "request_executor_task" ∈ (teardownRun tenv b1 b2 b3).1 ∧
    Event.cancelTask "keepalive_task" ∈ (teardownRun tenv b1 b2 b3).1 ∧
    Event.cancelTask "token_cleanup_task" ∈ (teardownRun tenv b1 b2 b3).1 ∧
    Event.releaseClients ∈ (teardownRun tenv b1 b2 b3).1 ∧
    (Event.limiterShutdown ∈ (teardownRun tenv b1 b2 b3).1 ↔
      tenv.cleanupClientsErr = none) ∧
    (Event.listenerCleanup ∈ (teardownRun tenv b1 b2 b3).1 ↔
      (tenv.cleanupClientsErr = none ∧ tenv.limiterShutdownErr = none)) := by
  rcases tenv with ⟨cc, ls, ac⟩
  cases cc <;> cases ls <;>
    simp [teardownRun, List.mem_append, List.mem_map]

/-- Claim C4 (amended), instantiated: with a raising limiter shutdown the
earlier steps run and the listener teardown does not. -/
theorem C4_teardown_not_guarded_witness :
    Event.cancelTask "request_executor_task" ∈
      (teardownRun ⟨none, some "queue stuck", none⟩ [] [] []).1 ∧
    Event.cancelTask "keepalive_task" ∈
      (teardownRun ⟨none, some "queue stuck", none⟩ [] [] []).1 ∧
    Event.cancelTask "token_cleanup_task" ∈
      (teardownRun ⟨none, some "queue stuck", none⟩ [] [] []).1 ∧
    Event.releaseClients ∈ (teardownRun ⟨none, some "queue stuck", none⟩ [] [] []).1 ∧
    (Event.limiterShutdown ∈ (teardownRun ⟨none, some "queue stuck", none⟩ [] [] []).1 ↔
      (⟨none, some "queue stuck", none⟩ : TeardownEnv).cleanupClientsErr = none) ∧
    (Event.listenerCleanup ∈ (teardownRun ⟨none, some "queue stuck", none⟩ [] [] []).1 ↔
      ((⟨none, some "queue stuck", none⟩ : TeardownEnv).cleanupClientsErr = none ∧
       (⟨none, some "queue stuck", none⟩ : TeardownEnv).limiterShutdownErr = none)) :=
  C4_teardown_not_guarded ⟨none, some "queue stuck", none⟩ [] [] []

/-- Claim C5: in every teardown run, under every interleaving of
background iterations and every per-step failure pattern, all task
cancellations precede the client-release call, which precedes any
rate-limiter shutdown, which precedes any listener teardown. -/
theorem C5_teardown_order (tenv : TeardownEnv) (b1 b2 b3 : List Nat) :
    Precedes isCancelTask isReleaseClients (teardownRun tenv b1 b2 b3).1 ∧
    Precedes isReleaseClients isLimiterShutdown (teardownRun tenv b1 b2 b3).1 ∧
    Precedes isLimiterShutdown isListenerCleanup (teardownRun tenv b1 b2 b3).1 := by
  rcases tenv with ⟨cc, ls, ac⟩
  cases cc with
  | some m =>
    refine ⟨?_, ?_, ?_⟩
    · have h := precedes_of_split
        [Event.cancelTask "request_executor_task", Event.cancelTask "keepalive_task",
         Event.cancelTask "token_cleanup_task"]
        (Event.releaseClients :: b1.map Event.bg)
        isCancelTask isReleaseClients
        (by intro x hx; cases x <;> simp_all [isReleaseClients])
        (by intro x hx; cases x <;> simp_all [isCancelTask])
      simpa [teardownRun] using h
    · exact precedes_of_no_q _ _ _
        (by intro x hx; cases x <;> simp_all [teardownRun, isLimiterShutdown])
    · exact precedes_of_no_q _ _ _
        (by intro x hx; cases x <;> simp_all [teardownRun, isListenerCleanup])
  | none =>
    cases ls with
    | some m =>
      refine ⟨?_, ?_, ?_⟩
      · have h := precedes_of_split
          [Event.cancelTask "request_executor_task", Event.cancelTask "keepalive_task",
           Event.cancelTask "token_cleanup_task"]
          (Event.releaseClients :: (b1.map Event.bg ++
            Event.limiterShutdown :: (b2.map Event.bg ++ [])))
          isCancelTask isReleaseClients
          (by intro x hx; cases x <;> simp_all [isReleaseClients])
          (by intro x hx; cases x <;> simp_all [isCancelTask])
        simpa [teardownRun] using h
      · have h := precedes_of_split
          [Event.cancelTask "request_executor_task", Event.cancelTask "keepalive_task",
           Event.cancelTask "token_cleanup_task", Event.releaseClients]
          (b1.map Event.bg ++ Event.limiterShutdown :: (b2.map Event.bg ++ []))
          isReleaseClients isLimiterShutdown
          (by intro x hx; cases x <;> simp_all [isLimiterShutdown])
          (by intro x hx; cases x <;> simp_all [isReleaseClients])
        simpa [teardownRun] using h
      · exact precedes_of_no_q _ _ _
          (by intro x hx; cases x <;> simp_all [teardownRun, isListenerCleanup])
    | none =>
      refine ⟨?_, ?_, ?_⟩
      · have h := precedes_of_split
          [Event.cancelTask "request_executor_task", Event.cancelTask "keepalive_task",
           Event.cancelTask "token_cleanup_task"]
          (Event.releaseClients :: (b1.map Event.bg ++
            Event.limiterShutdown :: (b2.map Event.bg ++
              Event.listenerCleanup :: b3.map Event.bg)))
          isCancelTask isReleaseClients
          (by intro x hx; cases x <;> simp_all [isReleaseClients])
          (by intro x hx; cases x <;> simp_all [isCancelTask])
        simpa [teardownRun] using h
      · have h := precedes_of_split
          [Event.cancelTask "request_executor_task", Event.cancelTask "keepalive_task",
           Event.cancelTask "token_cleanup_task", Event.releaseClients]
          (b1.map Event.bg ++ Event.limiterShutdown :: (b2.map Event.bg ++
            Event.listenerCleanup :: b3.map Event.bg))
          isReleaseClients isLimiterShutdown
          (by intro x hx; cases x <;> simp_all [isLimiterShutdown])
          (by intro x hx; cases x <;> simp_all [isReleaseClients])
        simpa [teardownRun] using h
      · have h := precedes_of_split
          ([Event.cancelTask "request_executor_task", Event.cancelTask "keepalive_task",
            Event.cancelTask "token_cleanup_task", Event.releaseClients] ++
            (b1.map Event.bg ++ [Event.limiterShutdown]))
          (b2.map Event.bg ++ Event.listenerCleanup :: b3.map Event.bg)
          isLimiterShutdown isListenerCleanup
          (by intro x hx; cases x <;> simp_all [isListenerCleanup])
          (by intro x hx; cases x <;> simp_all [isLimiterShutdown])
        simpa [teardownRun] using h

/-- Claim C5, instantiated: a run with interleaved background iterations
at every suspension point and no failing step. -/
theorem C5_teardown_order_witness :
    Precedes isCancelTask isReleaseClients
      (teardownRun ⟨none, none, none⟩ [1] [2] [3]).1 ∧
    Precedes isReleaseClients isLimiterShutdown
      (teardownRun ⟨none, none, none⟩ [1] [2] [3]).1 ∧
    Precedes isLimiterShutdown isListenerCleanup
      (teardownRun ⟨none, none, none⟩ [1] [2] [3]).1 :=
  C5_teardown_order ⟨none, none, none⟩ [1] [2] [3]

/- ──────────────────────── Claim C6 (cleanup loop) ─────────────────────── -/

theorem cleanup_run_to_cancel (l1 l2 : List IterOutcome)
    (h : IterOutcome.cancelled ∉ l1) :
    schedule_token_cleanup (l1 ++ .cancelled :: l2) =
      (cleanupEvents l1 ++ [.sleepInterval], true, l2) := by
  induction l1 with
  | nil => simp [schedule_token_cleanup, cleanupEvents]
  | cons o rest ih =>
    rw [List.mem_cons] at h
    push_neg at h
    cases o with
    | ok => simp [schedule_token_cleanup, cleanupEvents, ih h.2]
    | fail m => simp [schedule_token_cleanup, cleanupEvents, ih h.2]
    | cancelled => exact absurd rfl h.1

theorem cleanup_run_no_cancel (l : List IterOutcome)
    (h : IterOutcome.cancelled ∉ l) :
    schedule_token_cleanup l = (cleanupEvents l, false, []) := by
  induction l with
  | nil => simp [schedule_token_cleanup, cleanupEvents]
  | cons o rest ih =>
    rw [List.mem_cons] at h
    push_neg at h
    cases o with
    | ok => simp [schedule_token_cleanup, cleanupEvents, ih h.2]
    | fail m => simp [schedule_token_cleanup, cleanupEvents, ih h.2]
    | cancelled => exact absurd rfl h.1

theorem cleanup_log_iff (l : List IterOutcome) (h : IterOutcome.cancelled ∉ l) (m : String) :
    CEvent.logErr m ∈ cleanupEvents l ↔ IterOutcome.fail m ∈ l := by
  induction l with
  | nil => simp [cleanupEvents]
  | cons o rest ih =>
    rw [List.mem_cons] at h
    push_neg at h
    cases o with
    | ok => simp [cleanupEvents, ih h.2]
    | fail m2 => simp [cleanupEvents, ih h.2]
    | cancelled => exact absurd rfl h.1

theorem cleanup_stops_iff (outs : List IterOutcome) :
    (schedule_token_cleanup outs).2.1 = true ↔ IterOutcome.cancelled ∈ outs := by
  induction outs with
  | nil => simp [schedule_token_cleanup]
  | cons o rest ih =>
    cases o <;> simp [schedule_token_cleanup, ih]

/-- Claim C6: a non-cancellation exception in an iteration is logged and
the loop goes on (every outcome before the cancellation is processed, its
failures matched one-to-one by error logs); a cancellation breaks out of
the loop cleanly — no log for it, the outcomes after it never run — and
the loop terminates exactly when a cancellation occurs. -/
theorem C6_cleanup_resilience (l1 l2 outs : List IterOutcome)
    (h : IterOutcome.cancelled ∉ l1) :
    schedule_token_cleanup (l1 ++ .cancelled :: l2) =
      (cleanupEvents l1 ++ [.sleepInterval], true, l2) ∧
    schedule_token_cleanup l1 = (cleanupEvents l1, false, []) ∧
    (∀ m, CEvent.logErr m ∈ cleanupEvents l1 ↔ IterOutcome.fail m ∈ l1) ∧
    ((schedule_token_cleanup outs).2.1 = true ↔ IterOutcome.cancelled ∈ outs) :=
  ⟨cleanup_run_to_cancel l1 l2 h, cleanup_run_no_cancel l1 h,
   fun m => cleanup_log_iff l1 h m, cleanup_stops_iff outs⟩

/-- Claim C6, instantiated at the P4 scenario: three failing iterations,
a succeeding fourth, then a cancellation — the failures are logged, the
loop is still running before the cancellation, and the cancellation stops
it with the remaining outcome unprocessed. -/
theorem C6_cleanup_resilience_witness :
    schedule_token_cleanup
        ([.fail "e1", .fail "e2", .fail "e3", .ok] ++ .cancelled :: [.ok]) =
      (cleanupEvents [.fail "e1", .fail "e2", .fail "e3", .ok] ++ [.sleepInterval],
       true, [.ok]) ∧
    schedule_token_cleanup [.fail "e1", .fail "e2", .fail "e3", .ok] =
      (cleanupEvents [.fail "e1", .fail "e2", .fail "e3", .ok], false, []) ∧
    (∀ m, CEvent.logErr m ∈ cleanupEvents [.fail "e1", .fail "e2", .fail "e3", .ok] ↔
      IterOutcome.fail m ∈ [.fail "e1", .fail "e2", .fail "e3", .ok]) ∧
    ((schedule_token_cleanup
        ([.fail "e1", .fail "e2", .fail "e3", .ok] ++ .cancelled :: [.ok])).2.1 = true ↔
      IterOutcome.cancelled ∈
        ([.fail "e1", .fail "e2", .fail "e3", .ok] ++ .cancelled :: [.ok])) :=
  C6_cleanup_resilience [.fail "e1", .fail "e2", .fail "e3", .ok] [.ok]
    ([.fail "e1", .fail "e2", .fail "e3", .ok] ++ .cancelled :: [.ok])
    (by decide)

end Thunder
